import Mathlib

/-!
Verification of the session/auth lifecycle manager of the R2R dashboard
(`UserProvider` in the UserContext module, plus the `effectiveRole`
computation in `NavBar.tsx`).

The TypeScript component is embedded shallowly:
  * React `useState` cells become fields of a `World` record;
  * `sessionStorage` becomes the `Store` record; a stored string that is
    parsed with `JSON.parse` is represented by its parse outcome (`Stored`);
  * the backend client (`r2r-js`) is an external collaborator, so each
    backend call site takes its outcome as an explicit oracle argument;
  * JavaScript truthiness on `number | null` and on strings is modelled
    explicitly where the source relies on it (`lastLoginTime &&`,
    `storedAuthState ?`, `userRole || 'user'`).
-/

/-- The `'admin' | 'user'` role literals. -/
inductive Role
  | admin
  | user
deriving DecidableEq, Repr

/-- The `'admin' | 'user'` view-mode literals (`viewMode` state, initial `'admin'`). -/
inductive ViewMode
  | admin
  | user
deriving DecidableEq, Repr

/-- `AuthState` from `@/types`: `{ isAuthenticated, email, userRole }`,
with `email : string | null` and `userRole : 'admin' | 'user' | null`. -/
structure AuthState where
  isAuthenticated : Bool
  email : Option String
  userRole : Option Role
deriving DecidableEq, Repr

/-- The default unauthenticated state `{ isAuthenticated: false, email: null, userRole: null }`. -/
def defaultAuthState : AuthState :=
  { isAuthenticated := false, email := none, userRole := none }

/-- `Pipeline` from `@/types`: `{ deploymentUrl }`. -/
structure Pipeline where
  deploymentUrl : String
deriving DecidableEq, Repr

/-- The backend handle (`r2rClient`): its base URL and the token pair last
installed with `setTokens`.  A freshly constructed client carries no tokens,
represented by empty strings. -/
structure Client where
  baseUrl : String
  accessToken : String
  refreshToken : String
deriving DecidableEq, Repr

/-- JSON values, the possible outcomes of `JSON.parse`.  Object fields keep
their insertion order, matching `JSON.stringify` of an object literal. -/
inductive Json
  | null
  | bool (b : Bool)
  | num (n : Int)
  | str (s : String)
  | arr (elems : List Json)
  | obj (fields : List (String × Json))

/-- A string held in `sessionStorage` that the code passes to `JSON.parse`,
represented by its parse outcome: a non-empty string either parses to a JSON
value or makes `JSON.parse` throw; the empty string is distinguished because
the code tests the raw string for truthiness before parsing. -/
inductive Stored
  | json (j : Json)
  | notJson
  | emptyStr

/-- Property lookup on a JavaScript object's field list (first match; the
output of `JSON.parse` has no duplicate keys). -/
def jsGetFields : List (String × Json) → String → Option Json
  | [], _ => none
  | (k, v) :: rest, key => if k = key then some v else jsGetFields rest key

/-- JavaScript property access `o.key`: `none` plays the role of `undefined`.
Only objects carry the named fields used by the shape check; arrays and
primitives yield `undefined` for them. -/
def jsGet : Json → String → Option Json
  | .obj fields, key => jsGetFields fields key
  | _, _ => none

/-- `isAuthState(obj)` from UserContext lines 14-23: `typeof obj === 'object'`
(true for objects and arrays; `null` is excluded by `obj !== null`), then
`typeof obj.isAuthenticated === 'boolean'`, `email` is string or `null`, and
`userRole` is contained in `['admin', 'user', null]` (or `=== null`, which is
already covered by the list). -/
def isAuthState (j : Json) : Bool :=
  (match j with
   | .obj _ => true
   | .arr _ => true
   | _ => false) &&
  (match jsGet j "isAuthenticated" with
   | some (.bool _) => true
   | _ => false) &&
  (match jsGet j "email" with
   | some (.str _) => true
   | some .null => true
   | _ => false) &&
  (match jsGet j "userRole" with
   | some (.str s) => s = "admin" || s = "user"
   | some .null => true
   | _ => false)

/-- Reading the parsed object back as the TypeScript `AuthState` record (the
source simply returns the parsed value; this is the cast made explicit).
Only applied after `isAuthState` has passed, so the fallback arms are dead. -/
def decodeAuthState (j : Json) : AuthState :=
  { isAuthenticated :=
      match jsGet j "isAuthenticated" with
      | some (.bool b) => b
      | _ => false
    email :=
      match jsGet j "email" with
      | some (.str s) => some s
      | _ => none
    userRole :=
      match jsGet j "userRole" with
      | some (.str s) => if s = "admin" then some .admin else
          if s = "user" then some .user else none
      | _ => none }

/-- `JSON.stringify` of an `AuthState` object literal
`{ isAuthenticated, email, userRole }`, as written by `sessionStorage.setItem('authState', ...)`. -/
def encodeAuthState (a : AuthState) : Json :=
  .obj [("isAuthenticated", .bool a.isAuthenticated),
        ("email", match a.email with
                  | some s => .str s
                  | none => .null),
        ("userRole", match a.userRole with
                     | some .admin => .str "admin"
                     | some .user => .str "user"
                     | none => .null)]

/-- `JSON.stringify` of a `Pipeline` object literal `{ deploymentUrl }`. -/
def encodePipeline (p : Pipeline) : Json :=
  .obj [("deploymentUrl", .str p.deploymentUrl)]

/-- The `useState<AuthState>` initializer (UserContext lines 72-91): if a
stored string is present and truthy it is parsed — an unparseable string makes
the uncaught `JSON.parse` throw, modelled as `Except.error` — and the parse
result is kept only if it passes `isAuthState`, otherwise the default state is
returned and a warning is logged (the returned `Bool` records the warning). -/
def restoreAuthState : Option Stored → Except Unit (AuthState × Bool)
  | none => .ok (defaultAuthState, false)
  | some .emptyStr => .ok (defaultAuthState, false)
  | some .notJson => .error ()
  | some (.json j) =>
    if isAuthState j then .ok (decodeAuthState j, false)
    else .ok (defaultAuthState, true)

/-- The `sessionStorage` keys the component reads and writes.  `accessToken`,
`refreshToken` and `selectedModel` are used as raw strings; `authState` and
`pipeline` are JSON-parsed at startup, so those cells hold a `Stored`. -/
structure Store where
  authState : Option Stored
  pipeline : Option Stored
  accessToken : Option String
  refreshToken : Option String
  selectedModel : Option String

/-- A `sessionStorage` with no keys set. -/
def freshStore : Store :=
  { authState := none, pipeline := none, accessToken := none,
    refreshToken := none, selectedModel := none }

/-- The full session-manager state: the `useState` cells of `UserProvider`
together with the persistent store. -/
structure World where
  authState : AuthState
  client : Option Client
  pipeline : Option Pipeline
  viewMode : ViewMode
  lastLoginTime : Option Nat
  selectedModel : String
  store : Store

/-- The token pair returned by a successful `client.login`
(`{access_token: {token}, refresh_token: {token}}`). -/
structure Tokens where
  accessToken : String
  refreshToken : String

/-- Outcome of the backend `newClient.login(email, password)` call. -/
inductive LoginOutcome
  | ok (tokens : Tokens)
  | err

/-- Outcome of the backend `newClient.loginWithToken(token)` call; its result
carries only `access_token` (no refresh token). -/
inductive TokenLoginOutcome
  | ok (accessToken : String)
  | err

/-- Outcome of the post-login `newClient.appSettings()` role probe:
it succeeds, fails with an `Error` carrying `status === 403`, or fails with
any other error. -/
inductive ProbeResult
  | success
  | err403
  | errOther

/-- Outcome of the backend `client.refreshAccessToken()` call: new tokens, an
`AuthenticationError`, or any other error. -/
inductive RefreshOutcome
  | ok (accessToken : String) (refreshToken : String)
  | errAuth
  | errOther

/-- The role computed by the `appSettings()` probe (UserContext lines 120-134):
`userRole` starts as `'user'`, becomes `'admin'` on success, and both failure
arms only log (a 403 logs a privilege notice, anything else logs an
unexpected error) leaving `'user'` in place. -/
def probeRole : ProbeResult → Role
  | .success => .admin
  | .err403 => .user
  | .errOther => .user

/-- `login(email, password, instanceUrl)` (UserContext lines 99-157).  The
backend `login` runs before any state or store write, so its failure is
rethrown with the world untouched.  On success the token pair is persisted,
the new client installed with those tokens, the role probed, the new auth
state set and persisted, `lastLoginTime` recorded, and the pipeline set and
persisted; the call returns `{ success: true, userRole }`. -/
def login (w : World) (email _password instanceUrl : String)
    (outcome : LoginOutcome) (probe : ProbeResult) (now : Nat) :
    World × Except Unit (Bool × Role) :=
  match outcome with
  | .err => (w, .error ())
  | .ok tk =>
    let newClient : Client :=
      { baseUrl := instanceUrl, accessToken := tk.accessToken,
        refreshToken := tk.refreshToken }
    let userRole := probeRole probe
    let newAuthState : AuthState :=
      { isAuthenticated := true, email := some email, userRole := some userRole }
    let newPipeline : Pipeline := { deploymentUrl := instanceUrl }
    ({ w with
        client := some newClient
        authState := newAuthState
        lastLoginTime := some now
        pipeline := some newPipeline
        store := { w.store with
          accessToken := some tk.accessToken
          refreshToken := some tk.refreshToken
          authState := some (.json (encodeAuthState newAuthState))
          pipeline := some (.json (encodePipeline newPipeline)) } },
     .ok (true, userRole))

/-- `loginWithToken(token, instanceUrl)` (UserContext lines 159-211).  Unlike
`login`, only the access token is persisted (`result` has no refresh token)
and `setTokens` installs an empty refresh token; the recorded email is the
empty string.  Everything else mirrors `login`. -/
def loginWithToken (w : World) (_token instanceUrl : String)
    (outcome : TokenLoginOutcome) (probe : ProbeResult) (now : Nat) :
    World × Except Unit (Bool × Role) :=
  match outcome with
  | .err => (w, .error ())
  | .ok access =>
    let newClient : Client :=
      { baseUrl := instanceUrl, accessToken := access, refreshToken := "" }
    let userRole := probeRole probe
    let newAuthState : AuthState :=
      { isAuthenticated := true, email := some "", userRole := some userRole }
    let newPipeline : Pipeline := { deploymentUrl := instanceUrl }
    ({ w with
        client := some newClient
        authState := newAuthState
        lastLoginTime := some now
        pipeline := some newPipeline
        store := { w.store with
          accessToken := some access
          authState := some (.json (encodeAuthState newAuthState))
          pipeline := some (.json (encodePipeline newPipeline)) } },
     .ok (true, userRole))

/-- `logout()` (UserContext lines 213-234).  When a client exists and the
state is authenticated the backend `client.logout()` is attempted, but its
failure is caught and only logged, so the `backendLogoutFails` oracle has no
effect on the result.  The auth state is reset to the default, the
`pipeline`, `authState`, `accessToken` and `refreshToken` keys are removed
from the store (`selectedModel` is not removed), and the in-memory pipeline
and client are cleared. -/
def logout (w : World) (backendLogoutFails : Bool) : World :=
  let _ := backendLogoutFails
  { w with
      authState := defaultAuthState
      store := { w.store with
        pipeline := none
        authState := none
        accessToken := none
        refreshToken := none }
      pipeline := none
      client := none }

/-- The skip guard of `refreshTokenPeriodically` (UserContext lines 258-263):
`lastLoginTime && Date.now() - lastLoginTime < 5 * 60 * 1000`.  JavaScript
truthiness makes both `null` and the number `0` fail the first conjunct. -/
def refreshSkipGuard (lastLoginTime : Option Nat) (now : Nat) : Bool :=
  match lastLoginTime with
  | none => false
  | some t => decide (t ≠ 0) && decide ((now : Int) - (t : Int) < 5 * 60 * 1000)

/-- `refreshTokenPeriodically()` (UserContext lines 256-296).  A no-op unless
authenticated with a client; skipped when the guard holds.  On success the
new tokens are persisted, installed on the client in place, and
`lastLoginTime` is updated.  On an `AuthenticationError` the code enters a
branch that unconditionally throws `'Silent re-authentication not
implemented'`, catches it, and calls `logout()`; any other error calls
`logout()` directly — so every failure ends in `logout`.  The returned `Bool`
records whether the backend `refreshAccessToken` call was made. -/
def refreshTokenPeriodically (w : World) (now : Nat) (outcome : RefreshOutcome)
    (backendLogoutFails : Bool) : World × Bool :=
  if w.authState.isAuthenticated then
    match w.client with
    | none => (w, false)
    | some c =>
      if refreshSkipGuard w.lastLoginTime now then (w, false)
      else
        match outcome with
        | .ok access refresh =>
          ({ w with
              store := { w.store with
                accessToken := some access
                refreshToken := some refresh }
              client := some { c with accessToken := access, refreshToken := refresh }
              lastLoginTime := some now }, true)
        | .errAuth => (logout w backendLogoutFails, true)
        | .errOther => (logout w backendLogoutFails, true)
  else (w, false)

/-- `setViewMode(mode)`: a pure state update. -/
def setViewMode (w : World) (m : ViewMode) : World :=
  { w with viewMode := m }

/-- `setSelectedModel(model)` together with the effect (UserContext lines
363-367) that persists `selectedModel` to the store on every change. -/
def setSelectedModel (w : World) (s : String) : World :=
  { w with selectedModel := s, store := { w.store with selectedModel := some s } }

/-- The client-reconstruction effects (UserContext lines 302-336): when
authenticated with a pipeline but no client, a new client is built from the
deployment URL, and the persisted tokens are installed only when both are
present and non-empty (`getItem` returns `null` for a missing key and the
empty string is falsy). -/
def ensureClient (w : World) : World :=
  if w.authState.isAuthenticated then
    match w.pipeline, w.client with
    | some p, none =>
      let tokens : String × String :=
        match w.store.accessToken, w.store.refreshToken with
        | some a, some r => if a ≠ "" ∧ r ≠ "" then (a, r) else ("", "")
        | _, _ => ("", "")
      let newClient : Client :=
        { baseUrl := p.deploymentUrl, accessToken := tokens.1,
          refreshToken := tokens.2 }
      { w with client := some newClient }
    | _, _ => w
  else w

/-- A startup (page load) of `UserProvider` over a given store: the auth
state comes from `restoreAuthState`, the client is `null`, `viewMode` is
`'admin'` and `lastLoginTime` is `null` (it is not persisted).  The restored
pipeline and selected model are passed in by the caller: the pipeline
initializer casts its JSON parse result without validation and the model
initializer defaults to the empty string; neither value is constrained by
any property proved below, so reachability quantifies over them. -/
def startupWorld (st : Store) (a : AuthState) (p : Option Pipeline)
    (sm : String) : World :=
  { authState := a, client := none, pipeline := p, viewMode := .admin,
    lastLoginTime := none, selectedModel := sm, store := st }

/-- The very first startup, with an empty store. -/
def initialWorld : World :=
  startupWorld freshStore defaultAuthState none ""

/-- `effectiveRole` as computed in `NavBar.tsx` lines 109-110:
`viewMode === 'user' ? 'user' : authState.userRole || 'user'` — the `||`
coalesces a `null` role to `'user'`. -/
def effectiveRole (viewMode : ViewMode) (userRole : Option Role) : Role :=
  match viewMode with
  | .user => .user
  | .admin =>
    match userRole with
    | some r => r
    | none => .user

/-- Modelled from the spec (for comparison with `effectiveRole`): the formula
`effectiveRole = viewMode == user ? "user" : authState.userRole`, which keeps
`null` when the role is `null`. -/
def effectiveRoleSpec (viewMode : ViewMode) (userRole : Option Role) : Option Role :=
  match viewMode with
  | .user => some .user
  | .admin => userRole

/-- The states reachable by sequences of SessionManager operations starting
from the first-ever startup: login, loginWithToken, logout,
refreshTokenPeriodically, setViewMode, setSelectedModel, the client
reconstruction effects, and a reload that restarts the provider over the
current store (possible only when the auth-state initializer does not
throw). -/
inductive Reachable : World → Prop
  | init : Reachable initialWorld
  | login_step (w : World) (email password url : String) (o : LoginOutcome)
      (probe : ProbeResult) (now : Nat) : Reachable w →
      Reachable (login w email password url o probe now).1
  | loginWithToken_step (w : World) (token url : String) (o : TokenLoginOutcome)
      (probe : ProbeResult) (now : Nat) : Reachable w →
      Reachable (loginWithToken w token url o probe now).1
  | logout_step (w : World) (b : Bool) : Reachable w → Reachable (logout w b)
  | refresh_step (w : World) (now : Nat) (o : RefreshOutcome) (b : Bool) :
      Reachable w → Reachable (refreshTokenPeriodically w now o b).1
  | setViewMode_step (w : World) (m : ViewMode) : Reachable w →
      Reachable (setViewMode w m)
  | setSelectedModel_step (w : World) (s : String) : Reachable w →
      Reachable (setSelectedModel w s)
  | ensureClient_step (w : World) : Reachable w → Reachable (ensureClient w)
  | reload_step (w : World) (a : AuthState) (warn : Bool) (p : Option Pipeline)
      (sm : String) : Reachable w →
      restoreAuthState w.store.authState = .ok (a, warn) →
      Reachable (startupWorld w.store a p sm)

/-! ### Round-trip lemmas for the persisted auth state -/

/-- Every value of the `AuthState` type serializes to a JSON object that
passes the `isAuthState` shape check. -/
lemma isAuthState_encode (a : AuthState) : isAuthState (encodeAuthState a) = true := by
  obtain ⟨b, e, r⟩ := a
  cases e <;> rcases r with _ | r <;> try cases r
  all_goals rfl

/-- Decoding inverts encoding on every value of the `AuthState` type. -/
lemma decodeAuthState_encode (a : AuthState) : decodeAuthState (encodeAuthState a) = a := by
  obtain ⟨b, e, r⟩ := a
  cases e <;> rcases r with _ | r <;> try cases r
  all_goals rfl

/-- Restoring a persisted `AuthState` reproduces it exactly, with no warning. -/
lemma restoreAuthState_encode (a : AuthState) :
    restoreAuthState (some (.json (encodeAuthState a))) = .ok (a, false) := by
  simp [restoreAuthState, isAuthState_encode, decodeAuthState_encode]

/-! ### The auth-state invariant, by induction over reachability -/

/-- The spec's `AuthState` invariant: unauthenticated states carry no email
and no role. -/
def AuthInv (a : AuthState) : Prop :=
  a.isAuthenticated = false → a.email = none ∧ a.userRole = none

/-- Operationally, the persisted `authState` key only ever holds the
serialization of an authenticated state (written by the two login
operations), so restoring it cannot break the invariant. -/
def StoreOK (s : Store) : Prop :=
  ∀ x, s.authState = some x →
    ∃ e r, x = Stored.json (encodeAuthState ⟨true, e, r⟩)

lemma logout_strongInv (w : World) (b : Bool) :
    AuthInv (logout w b).authState ∧ StoreOK (logout w b).store := by
  refine ⟨fun _ => ⟨rfl, rfl⟩, fun x hx => ?_⟩
  simp [logout] at hx

lemma reachable_strongInv (w : World) (h : Reachable w) :
    AuthInv w.authState ∧ StoreOK w.store := by
  induction h with
  | init =>
    refine ⟨fun _ => ⟨rfl, rfl⟩, fun x hx => ?_⟩
    simp [initialWorld, startupWorld, freshStore] at hx
  | login_step w email password url o probe now _ ih =>
    cases o with
    | err => simpa [login] using ih
    | ok tk =>
      refine ⟨fun hfalse => ?_, fun x hx => ?_⟩
      · simp [login] at hfalse
      · simp [login] at hx
        exact ⟨some email, some (probeRole probe), hx.symm⟩
  | loginWithToken_step w token url o probe now _ ih =>
    cases o with
    | err => simpa [loginWithToken] using ih
    | ok access =>
      refine ⟨fun hfalse => ?_, fun x hx => ?_⟩
      · simp [loginWithToken] at hfalse
      · simp [loginWithToken] at hx
        exact ⟨some "", some (probeRole probe), hx.symm⟩
  | logout_step w b _ _ => exact logout_strongInv w b
  | refresh_step w now o b _ ih =>
    by_cases hAuth : w.authState.isAuthenticated
    · rcases hC : w.client with _ | c
      · simpa [refreshTokenPeriodically, hAuth, hC] using ih
      · by_cases hg : refreshSkipGuard w.lastLoginTime now
        · simpa [refreshTokenPeriodically, hAuth, hC, hg] using ih
        · cases o with
          | ok access refresh =>
            refine ⟨fun hfalse => ?_, fun x hx => ?_⟩
            · simp [refreshTokenPeriodically, hAuth, hC, hg] at hfalse
            · simp [refreshTokenPeriodically, hAuth, hC, hg] at hx
              exact ih.2 x hx
          | errAuth =>
            simpa [refreshTokenPeriodically, hAuth, hC, hg] using logout_strongInv w b
          | errOther =>
            simpa [refreshTokenPeriodically, hAuth, hC, hg] using logout_strongInv w b
    · simpa [refreshTokenPeriodically, hAuth] using ih
  | setViewMode_step w m _ ih => simpa [setViewMode] using ih
  | setSelectedModel_step w s _ ih =>
    refine ⟨by simpa [setSelectedModel] using ih.1, fun x hx => ?_⟩
    simp [setSelectedModel] at hx
    exact ih.2 x hx
  | ensureClient_step w _ ih =>
    have hA : (ensureClient w).authState = w.authState := by
      unfold ensureClient
      repeat' split
      all_goals rfl
    have hS : (ensureClient w).store = w.store := by
      unfold ensureClient
      repeat' split
      all_goals rfl
    rw [hA, hS]
    exact ih
  | reload_step w a warn p sm _ hres ih =>
    refine ⟨?_, by simpa [startupWorld] using ih.2⟩
    intro hfalse
    rcases hcell : w.store.authState with _ | x
    · rw [hcell] at hres
      simp [restoreAuthState] at hres
      obtain ⟨h1, -⟩ := hres
      subst h1
      exact ⟨rfl, rfl⟩
    · obtain ⟨e, r, rfl⟩ := ih.2 x hcell
      rw [hcell, restoreAuthState_encode] at hres
      injection hres with h1
      injection h1 with h2 h3
      rw [← h2] at hfalse
      simp [startupWorld] at hfalse

/-- C1: for every state reachable by any sequence of SessionManager
operations (startup restoration from the persistent store, login,
loginWithToken, logout, refreshTokenPeriodically, setViewMode, ...), if
`authState.isAuthenticated` is false then `authState.email` and
`authState.userRole` are both null. -/
theorem c1_authState_invariant (w : World) (h : Reachable w)
    (hfalse : w.authState.isAuthenticated = false) :
    w.authState.email = none ∧ w.authState.userRole = none :=
  (reachable_strongInv w h).1 hfalse

/-- Witness for C1 at the initial world. -/
theorem c1_witness :
    initialWorld.authState.email = none ∧ initialWorld.authState.userRole = none :=
  c1_authState_invariant initialWorld Reachable.init rfl

/-! ### Sample states used by witnesses and counterexamples -/

/-- A concrete backend handle. -/
def sampleClient : Client :=
  { baseUrl := "http://localhost:8000", accessToken := "acc", refreshToken := "ref" }

/-- A concrete authenticated world (as after a restored session: no
`lastLoginTime`). -/
def sampleAuthWorld : World :=
  { authState := ⟨true, some "admin@example.com", some .admin⟩
    client := some sampleClient
    pipeline := some ⟨"http://localhost:8000"⟩
    viewMode := .admin
    lastLoginTime := none
    selectedModel := ""
    store := { authState := none, pipeline := none, accessToken := some "acc",
               refreshToken := some "ref", selectedModel := none } }

/-- C2: whenever `refreshTokenPeriodically` runs with its precondition
satisfied (authenticated, a handle present, the 5-minute skip not applying)
and the `refreshAccessToken` call fails — with an authentication error or any
other error — the operation ends by performing `logout`: the auth state is
reset to the default unauthenticated value and the persisted token fields
(and persisted auth state) are cleared. -/
theorem c2_refresh_failure_forces_logout (w : World) (now : Nat)
    (o : RefreshOutcome) (blf : Bool) (c : Client)
    (hAuth : w.authState.isAuthenticated = true)
    (hc : w.client = some c)
    (hskip : refreshSkipGuard w.lastLoginTime now = false)
    (hfail : o = .errAuth ∨ o = .errOther) :
    (refreshTokenPeriodically w now o blf).1 = logout w blf ∧
    (refreshTokenPeriodically w now o blf).1.authState = defaultAuthState ∧
    (refreshTokenPeriodically w now o blf).1.store.accessToken = none ∧
    (refreshTokenPeriodically w now o blf).1.store.refreshToken = none ∧
    (refreshTokenPeriodically w now o blf).1.store.authState = none := by
  rcases hfail with rfl | rfl <;>
    simp [refreshTokenPeriodically, hAuth, hc, hskip, logout]

/-- Witness for C2 at a concrete authenticated world and a failing refresh. -/
theorem c2_witness :
    (refreshTokenPeriodically sampleAuthWorld 0 .errAuth false).1 =
      logout sampleAuthWorld false ∧
    (refreshTokenPeriodically sampleAuthWorld 0 .errAuth false).1.authState =
      defaultAuthState ∧
    (refreshTokenPeriodically sampleAuthWorld 0 .errAuth false).1.store.accessToken = none ∧
    (refreshTokenPeriodically sampleAuthWorld 0 .errAuth false).1.store.refreshToken = none ∧
    (refreshTokenPeriodically sampleAuthWorld 0 .errAuth false).1.store.authState = none :=
  c2_refresh_failure_forces_logout sampleAuthWorld 0 .errAuth false sampleClient
    rfl rfl rfl (Or.inl rfl)

/-- C3: when the handle's `login` succeeds, the resulting role is determined
by the `appSettings` probe — success gives `'admin'`, an HTTP-403 failure
gives `'user'`, any other failure also gives `'user'` — the probe failure
never aborts the call, the resulting auth state is
`{isAuthenticated: true, email, userRole}` and the returned value is
`{success: true, userRole}`. -/
theorem c3_login_role_probe (w : World) (email password url : String)
    (tk : Tokens) (probe : ProbeResult) (now : Nat) :
    (login w email password url (.ok tk) probe now).2 =
      .ok (true, probeRole probe) ∧
    (login w email password url (.ok tk) probe now).1.authState =
      ⟨true, some email, some (probeRole probe)⟩ ∧
    probeRole .success = .admin ∧
    probeRole .err403 = .user ∧
    probeRole .errOther = .user :=
  ⟨rfl, rfl, rfl, rfl, rfl⟩

/-- C4: when the handle's own `login` call fails the error propagates and the
whole world is unchanged (so an unauthenticated state stays unauthenticated
and no handle is installed); conversely, a backend-accepted login yields
`isAuthenticated = true` and a non-null handle carrying the returned
tokens. -/
theorem c4_login_failure_propagates (w : World) (email password url : String)
    (probe : ProbeResult) (now : Nat) (tk : Tokens) :
    login w email password url .err probe now = (w, .error ()) ∧
    (login w email password url (.ok tk) probe now).1.authState.isAuthenticated = true ∧
    (login w email password url (.ok tk) probe now).1.client =
      some ⟨url, tk.accessToken, tk.refreshToken⟩ :=
  ⟨rfl, rfl, rfl⟩

/-- C10: when `refreshTokenPeriodically` runs authenticated with a handle but
`lastLoginTime = null` (a session restored from the store, since
`lastLoginTime` is not persisted), the 5-minute skip guard does not apply and
the backend `refreshAccessToken` call is always made, whatever the current
time and outcome. -/
theorem c10_null_lastLoginTime_no_skip (w : World) (now : Nat)
    (o : RefreshOutcome) (blf : Bool) (c : Client)
    (hAuth : w.authState.isAuthenticated = true)
    (hc : w.client = some c)
    (ht : w.lastLoginTime = none) :
    (refreshTokenPeriodically w now o blf).2 = true := by
  cases o <;> simp [refreshTokenPeriodically, hAuth, hc, refreshSkipGuard, ht]

/-- Witness for C10 at a concrete restored world. -/
theorem c10_witness :
    (refreshTokenPeriodically sampleAuthWorld 0 (.ok "newA" "newR") false).2 = true :=
  c10_null_lastLoginTime_no_skip sampleAuthWorld 0 (.ok "newA" "newR") false
    sampleClient rfl rfl rfl

/-! ### C5: logout clearing and idempotence -/

/-- A concrete fully-populated logged-in world with a persisted selected
model. -/
def c5World : World :=
  { authState := ⟨true, some "admin@example.com", some .admin⟩
    client := some ⟨"http://localhost:8000", "acc", "ref"⟩
    pipeline := some ⟨"http://localhost:8000"⟩
    viewMode := .admin
    lastLoginTime := some 10
    selectedModel := "model-a"
    store :=
      { authState := some (.json (encodeAuthState ⟨true, some "admin@example.com", some .admin⟩))
        pipeline := some (.json (encodePipeline ⟨"http://localhost:8000"⟩))
        accessToken := some "acc"
        refreshToken := some "ref"
        selectedModel := some "model-a" } }

/-- C5 counterexample: `logout` does not remove the `selectedModel` key, so
the claim's persisted-field list ("all cleared together on logout",
including `selectedModel`) fails at this concrete state. -/
theorem c5_counterexample :
    (logout c5World false).store.selectedModel ≠ none := by
  simp [logout, c5World]

/-- C5 as amended: after one `logout` from any starting state, the auth state
is the default, the `authState`, `pipeline`, `accessToken` and `refreshToken`
store keys are absent (`selectedModel` is kept), the in-memory handle and
deployment are cleared; a second `logout` yields exactly the same end state
as one, and the backend logout outcome never affects the reset. -/
theorem c5_logout_idempotent (w : World) (b b2 : Bool) :
    (logout w b).authState = defaultAuthState ∧
    (logout w b).store.authState = none ∧
    (logout w b).store.pipeline = none ∧
    (logout w b).store.accessToken = none ∧
    (logout w b).store.refreshToken = none ∧
    (logout w b).store.selectedModel = w.store.selectedModel ∧
    (logout w b).client = none ∧
    (logout w b).pipeline = none ∧
    logout (logout w b) b2 = logout w b ∧
    logout w true = logout w false :=
  ⟨rfl, rfl, rfl, rfl, rfl, rfl, rfl, rfl, rfl, rfl⟩

/-! ### C6: startup restoration round trip -/

/-- C6 counterexample: a stored string that is not valid JSON makes the
uncaught `JSON.parse` in the initializer throw — restoration does not fall
back to the default state, contradicting the claim's "for any malformed
stored value ... never throws". -/
theorem c6_counterexample :
    restoreAuthState (some Stored.notJson) = .error () ∧
    restoreAuthState (some Stored.notJson) ≠ .ok (defaultAuthState, true) :=
  ⟨rfl, by intro h; exact Except.noConfusion h⟩

/-- C6 as amended: persisting any `AuthState` value and restoring reproduces
it exactly with no warning, and any stored string that parses as JSON but
fails the `isAuthState` shape check (e.g. `userRole: "superadmin"`) restores
the default unauthenticated state with a warning; an unparseable stored
string, however, makes the initializer throw. -/
theorem c6_restore_round_trip (a : AuthState) (j : Json)
    (hbad : isAuthState j = false) :
    restoreAuthState (some (.json (encodeAuthState a))) = .ok (a, false) ∧
    restoreAuthState (some (.json j)) = .ok (defaultAuthState, true) :=
  ⟨restoreAuthState_encode a, by simp [restoreAuthState, hbad]⟩

/-- The spec's example of a malformed persisted value: a shape-valid-looking
object whose `userRole` is `"superadmin"`. -/
def superadminJson : Json :=
  .obj [("isAuthenticated", .bool true),
        ("email", .str "root@example.com"),
        ("userRole", .str "superadmin")]

/-- Witness for C6 at a concrete valid state and the `superadmin` object. -/
theorem c6_witness :
    restoreAuthState (some (.json (encodeAuthState
        ⟨true, some "admin@example.com", some .admin⟩))) =
      .ok (⟨true, some "admin@example.com", some .admin⟩, false) ∧
    restoreAuthState (some (.json superadminJson)) =
      .ok (defaultAuthState, true) :=
  c6_restore_round_trip ⟨true, some "admin@example.com", some .admin⟩
    superadminJson (by decide)

/-! ### C7: the 5-minute refresh skip window -/

/-- A concrete authenticated world whose `lastLoginTime` is the timestamp 0,
which JavaScript truthiness treats like `null`. -/
def c7ZeroWorld : World :=
  { authState := ⟨true, some "admin@example.com", some .admin⟩
    client := some ⟨"http://localhost:8000", "acc", "ref"⟩
    pipeline := some ⟨"http://localhost:8000"⟩
    viewMode := .admin
    lastLoginTime := some 0
    selectedModel := ""
    store := { authState := none, pipeline := none, accessToken := some "acc",
               refreshToken := some "ref", selectedModel := none } }

/-- C7 counterexample: with the non-null `lastLoginTime = 0` and current time
1 (less than 5 minutes later), the claim says the refresh is skipped with no
backend call and no state change, but the guard `lastLoginTime && ...` treats
the number 0 as falsy, so the backend call is made and `lastLoginTime` is
updated. -/
theorem c7_counterexample :
    ((1 : Int) - (0 : Nat) < 5 * 60 * 1000) ∧
    (refreshTokenPeriodically c7ZeroWorld 1 (.ok "newA" "newR") false).2 = true ∧
    (refreshTokenPeriodically c7ZeroWorld 1 (.ok "newA" "newR") false).1.lastLoginTime =
      some 1 :=
  ⟨by decide, rfl, rfl⟩

/-- C7 as amended: for an authenticated world with a handle and a non-null,
non-zero `lastLoginTime = T`, a refresh invocation strictly less than 5
minutes after `T` is skipped entirely (no backend call, no state or store
change), and one at least 5 minutes after `T` proceeds: on success the new
tokens are persisted, installed on the handle in place, and `lastLoginTime`
becomes the current time. -/
theorem c7_refresh_skip_window (w : World) (now : Nat) (o : RefreshOutcome)
    (a r : String) (blf : Bool) (c : Client) (t : Nat)
    (hAuth : w.authState.isAuthenticated = true)
    (hc : w.client = some c)
    (ht : w.lastLoginTime = some t)
    (hnz : t ≠ 0) :
    ((now : Int) - (t : Int) < 5 * 60 * 1000 →
      refreshTokenPeriodically w now o blf = (w, false)) ∧
    (¬ ((now : Int) - (t : Int) < 5 * 60 * 1000) →
      refreshTokenPeriodically w now (.ok a r) blf =
        ({ w with
            store := { w.store with accessToken := some a, refreshToken := some r }
            client := some { c with accessToken := a, refreshToken := r }
            lastLoginTime := some now }, true)) := by
  constructor
  · intro hlt
    have hskip : refreshSkipGuard w.lastLoginTime now = true := by
      simp [refreshSkipGuard, ht, hnz]
      omega
    simp [refreshTokenPeriodically, hAuth, hc, hskip]
  · intro hge
    have hskip : refreshSkipGuard w.lastLoginTime now = false := by
      simp [refreshSkipGuard, ht]
      omega
    simp [refreshTokenPeriodically, hAuth, hc, hskip]

/-- A concrete authenticated world with `lastLoginTime = 50`. -/
def c7SkipWorld : World :=
  { authState := ⟨true, some "admin@example.com", some .admin⟩
    client := some ⟨"http://localhost:8000", "acc", "ref"⟩
    pipeline := some ⟨"http://localhost:8000"⟩
    viewMode := .admin
    lastLoginTime := some 50
    selectedModel := ""
    store := { authState := none, pipeline := none, accessToken := some "acc",
               refreshToken := some "ref", selectedModel := none } }

/-- Witness for C7: at time 100, 50 milliseconds after a login at time 50,
the refresh is skipped. -/
theorem c7_witness :
    refreshTokenPeriodically c7SkipWorld 100 .errOther false = (c7SkipWorld, false) :=
  (c7_refresh_skip_window c7SkipWorld 100 .errOther "x" "y" false
      ⟨"http://localhost:8000", "acc", "ref"⟩ 50 rfl rfl rfl (by decide)).1
    (by decide)

/-! ### C8: the loginWithToken contract -/

/-- C8 counterexample: from the fresh initial world, a successful
`loginWithToken` leaves the `refreshToken` store key absent and installs the
handle with an empty refresh token — the claim's "persists both tokens
(access and refresh)" fails. -/
theorem c8_counterexample :
    (loginWithToken initialWorld "tok" "http://localhost:8000"
        (.ok "acc") .success 5).1.store.refreshToken = none ∧
    (loginWithToken initialWorld "tok" "http://localhost:8000"
        (.ok "acc") .success 5).1.client =
      some ⟨"http://localhost:8000", "acc", ""⟩ :=
  ⟨rfl, rfl⟩

/-- C8 as amended: for every successful token exchange, `loginWithToken`
persists the access token (only — the `refreshToken` store key is left
untouched), installs the new handle with an empty refresh token, runs the
same role probe as `login`, sets `authState = {isAuthenticated: true, email:
"", userRole}` (persisting it), records `lastLoginTime`, sets and persists
the deployment, and returns `{success: true, userRole}`. -/
theorem c8_loginWithToken_contract (w : World) (token url access : String)
    (probe : ProbeResult) (now : Nat) :
    (loginWithToken w token url (.ok access) probe now).2 =
      .ok (true, probeRole probe) ∧
    (loginWithToken w token url (.ok access) probe now).1.authState =
      ⟨true, some "", some (probeRole probe)⟩ ∧
    (loginWithToken w token url (.ok access) probe now).1.store.accessToken =
      some access ∧
    (loginWithToken w token url (.ok access) probe now).1.store.refreshToken =
      w.store.refreshToken ∧
    (loginWithToken w token url (.ok access) probe now).1.client =
      some ⟨url, access, ""⟩ ∧
    (loginWithToken w token url (.ok access) probe now).1.lastLoginTime =
      some now ∧
    (loginWithToken w token url (.ok access) probe now).1.pipeline =
      some ⟨url⟩ ∧
    (loginWithToken w token url (.ok access) probe now).1.store.pipeline =
      some (.json (encodePipeline ⟨url⟩)) ∧
    (loginWithToken w token url (.ok access) probe now).1.store.authState =
      some (.json (encodeAuthState ⟨true, some "", some (probeRole probe)⟩)) :=
  ⟨rfl, rfl, rfl, rfl, rfl, rfl, rfl, rfl, rfl⟩

/-! ### C9: the derived effectiveRole -/

/-- C9 counterexample: with `viewMode = 'admin'` and a null `userRole` the
code's `authState.userRole || 'user'` yields `'user'`, not the null the
spec's formula prescribes. -/
theorem c9_counterexample :
    some (effectiveRole .admin none) ≠ effectiveRoleSpec .admin none := by
  decide

/-- C9 as amended: for every combination of `viewMode` and `userRole`, the
code's `effectiveRole` equals the spec formula with a null result coalesced
to `'user'`: it is `'user'` whenever `viewMode` is `'user'`, equals
`userRole` when `viewMode` is `'admin'` and the role is non-null, and
defaults to `'user'` when the role is null. -/
theorem c9_effectiveRole_formula (vm : ViewMode) (ur : Option Role) :
    effectiveRole vm ur = (effectiveRoleSpec vm ur).getD .user := by
  cases vm <;> cases ur <;> rfl
